import Mathlib

/-!
Verification of the tesla-alert charge-status core (`tesla_connect.py`,
`charge_status.py`) against its natural-language specification.

The Python code is shallowly embedded: every HTTP interaction is replaced by
an oracle argument giving the decoded JSON body of the corresponding response
(`none` models a failed HTTP call or an undecodable body), Python dictionaries
become association lists with Python's last-write-wins update semantics,
Python floats become exact rationals, and every Python exception path becomes
an `Except` error classified by the operation that raised it
(`AuthenticationError`, `VehicleListError`, `TelemetryError`, transport).
-/

set_option autoImplicit false

/-- Decoded JSON values, as produced by `response.json()` in the source. -/
inductive Json where
  | null
  | bool (b : Bool)
  | num (q : ℚ)
  | str (s : String)
  | arr (elems : List Json)
  | obj (fields : List (String × Json))

/-- Lookup of a key in a decoded JSON object, first match (decoded objects
have unique keys).  Returning `none` models Python's `KeyError`. -/
def lookupField : List (String × Json) → String → Option Json
  | [], _ => none
  | (k, v) :: rest, key => if k = key then some v else lookupField rest key

/-- Python subscript `j[key]` on a decoded JSON value: a field lookup when the
value is an object, an error (`none`) otherwise. -/
def Json.get : Json → String → Option Json
  | Json.obj fields, key => lookupField fields key
  | _, _ => none

/-- Python truthiness of a decoded JSON value (used by `not vehicle['in_service']`). -/
def Json.truthy : Json → Bool
  | Json.null => false
  | Json.bool b => b
  | Json.num q => decide (q ≠ 0)
  | Json.str s => decide (s ≠ "")
  | Json.arr [] => false
  | Json.arr (_ :: _) => true
  | Json.obj [] => false
  | Json.obj (_ :: _) => true

/-- Python identity test `x is True`: true exactly for the boolean `True`
(`1 is True` and `"true" is True` are both false in Python). -/
def Json.isTrue : Json → Bool
  | Json.bool true => true
  | _ => false

/-- View a decoded JSON value as a Python `str`; `none` models the `TypeError`
raised when a string operation is applied to a non-string. -/
def Json.asStr : Json → Option String
  | Json.str s => some s
  | _ => none

/-- View a decoded JSON value as a Python list; `none` models the `TypeError`
raised when iterating a non-sequence. -/
def Json.asArr : Json → Option (List Json)
  | Json.arr l => some l
  | _ => none

/-- Python numeric coercion for comparisons: numbers are themselves and bools
coerce to 0 or 1 (`True > 0` holds in Python); anything else raises
`TypeError`, modelled by `none`. -/
def Json.toPyNum : Json → Option ℚ
  | Json.num q => some q
  | Json.bool b => some (if b then 1 else 0)
  | _ => none

/-- Python `==` between a decoded JSON value and a string literal: value
equality on strings, `False` (without error) on every other type. -/
def Json.eqPyStr : Json → String → Bool
  | Json.str a, b => decide (a = b)
  | _, _ => false

/-- Error classification for the exception paths of the client, following the
specification's taxonomy. -/
inductive ApiError where
  | authenticationError
  | vehicleListError
  | telemetryError
  | transportError
  deriving DecidableEq

/-- Turn the `Option` result of a fallible Python access into `Except`,
classifying the raised exception as `e`. -/
def ofOption {α : Type} (o : Option α) (e : ApiError) : Except ApiError α :=
  match o with
  | some a => Except.ok a
  | none => Except.error e

/-- Python dictionary update `d[k] = v`: replace in place when the key is
present (last write wins), append otherwise. -/
def dictInsert {K V : Type} [DecidableEq K] (d : List (K × V)) (k : K) (v : V) : List (K × V) :=
  if d.any (fun p => decide (p.1 = k)) then
    d.map (fun p => if p.1 = k then (k, v) else p)
  else
    d ++ [(k, v)]

/-- A Python dictionary key as used in `charge_status.py`: either a string
(a vehicle identifier) or the builtin function object `id`, which the line
`unplugged_vehicles[id] = vehicle_name` uses as a key. -/
inductive PyKey where
  | str (s : String)
  | builtin_id
  deriving DecidableEq

/-- The configured home location (`config['home_location']`). -/
structure HomeLocation where
  latitude : ℚ
  longitude : ℚ

/-- The `tesla_connect` section of the configuration. -/
structure Config where
  username : String
  password : String
  home_location : HomeLocation

/-- The local state of a `TeslaConnect` instance: the stored configuration,
the bearer token obtained at construction, and the common HTTP headers. -/
structure TeslaConnect where
  _config : Config
  _token : String
  _http_headers : List (String × String)

def TeslaConnect._version : String := "2.1.79"

def TeslaConnect._model : String := "SM-G900V"

def TeslaConnect._codename : String := "REL"

def TeslaConnect._release : String := "4.4.4"

def TeslaConnect._locale : String := "en_US"

/-- The User-Agent string built in `tesla_connect.py`. -/
def TeslaConnect._user_agent : String :=
  "Model S " ++ TeslaConnect._version ++ " (" ++ TeslaConnect._model ++ "; Android "
    ++ TeslaConnect._codename ++ " " ++ TeslaConnect._release ++ "; "
    ++ TeslaConnect._locale ++ ")"

/-- `TeslaConnect.__init__`: authenticate against the token endpoint and build
the client state.  `authResponse` is the decoded JSON body of the token
response (`none` models a failed HTTP call or an undecodable body); a missing
or non-string `access_token` is the `AuthenticationError` path. -/
def TeslaConnect.init (config : Config) (authResponse : Option Json) :
    Except ApiError TeslaConnect := do
  let authdata ← ofOption authResponse ApiError.authenticationError
  let tokenJ ← ofOption (authdata.get ("access_token")) ApiError.authenticationError
  let token ← ofOption tokenJ.asStr ApiError.authenticationError
  Except.ok
    { _config := config
      _token := token
      _http_headers :=
        [(("Authorization"), ("Bearer " ++ token)),
         (("Content-Type"), ("application/json; charset=utf-8")),
         (("User-Agent"), TeslaConnect._user_agent)] }

/-- The per-vehicle loop of `TeslaConnect.get_vehicles`: skip a vehicle whose
`id_s` is empty or whose `in_service` is truthy, query the `mobile_enabled`
endpoint for the survivors, and record the vehicle only when that response's
`response` field is identically `True`. -/
def get_vehicles_loop (mobileEnabled : String → Option Json) :
    List Json → List (String × Json) → Except ApiError (List (String × Json))
  | [], vehicles => Except.ok vehicles
  | vehicle :: rest, vehicles => do
    let idJ ← ofOption (vehicle.get ("id_s")) ApiError.vehicleListError
    let id_s ← ofOption idJ.asStr ApiError.vehicleListError
    if 0 < id_s.length then
      let insJ ← ofOption (vehicle.get ("in_service")) ApiError.vehicleListError
      if insJ.truthy then
        get_vehicles_loop mobileEnabled rest vehicles
      else
        let mej ← ofOption (mobileEnabled id_s) ApiError.transportError
        let respJ ← ofOption (mej.get ("response")) ApiError.vehicleListError
        if respJ.isTrue then
          let nameJ ← ofOption (vehicle.get ("display_name")) ApiError.vehicleListError
          get_vehicles_loop mobileEnabled rest (dictInsert vehicles id_s nameJ)
        else
          get_vehicles_loop mobileEnabled rest vehicles
    else
      get_vehicles_loop mobileEnabled rest vehicles

/-- `TeslaConnect.get_vehicles`: decode the enumeration response, and when its
`count` is positive walk its `response` list with `get_vehicles_loop`.
`vehiclesResponse` is the decoded body of the enumeration call and
`mobileEnabled id` the decoded body of that vehicle's `mobile_enabled` call. -/
def TeslaConnect.get_vehicles (tc : TeslaConnect) (vehiclesResponse : Option Json)
    (mobileEnabled : String → Option Json) :
    Except ApiError (List (String × Json) × TeslaConnect) := do
  let vehicles_json ← ofOption vehiclesResponse ApiError.transportError
  let countJ ← ofOption (vehicles_json.get ("count")) ApiError.vehicleListError
  let count ← ofOption countJ.toPyNum ApiError.vehicleListError
  if 0 < count then
    let respJ ← ofOption (vehicles_json.get ("response")) ApiError.vehicleListError
    let vs ← ofOption respJ.asArr ApiError.vehicleListError
    let vehicles ← get_vehicles_loop mobileEnabled vs []
    Except.ok (vehicles, tc)
  else
    Except.ok ([], tc)

/-- `TeslaConnect.is_car_at_home`: decode the drive-state response and compare
latitude and longitude against the configured home location with a 0.0005
tolerance per axis; the longitude conjunct is only evaluated when the latitude
conjunct holds (Python `and` short-circuits). -/
def TeslaConnect.is_car_at_home (tc : TeslaConnect) (driveStateResponse : Option Json) :
    Except ApiError (Bool × TeslaConnect) := do
  let drive_state_json ← ofOption driveStateResponse ApiError.transportError
  let resp ← ofOption (drive_state_json.get ("response")) ApiError.telemetryError
  let latJ ← ofOption (resp.get ("latitude")) ApiError.telemetryError
  let lat ← ofOption latJ.toPyNum ApiError.telemetryError
  if |lat - tc._config.home_location.latitude| ≤ 0.0005 then
    let lonJ ← ofOption (resp.get ("longitude")) ApiError.telemetryError
    let lon ← ofOption lonJ.toPyNum ApiError.telemetryError
    Except.ok (decide (|lon - tc._config.home_location.longitude| ≤ 0.0005), tc)
  else
    Except.ok (false, tc)

/-- `TeslaConnect.is_car_unplugged`: decode the charge-state response and test
`charging_state == 'Disconnected'` (Python string equality, no error on a
non-string value). -/
def TeslaConnect.is_car_unplugged (tc : TeslaConnect) (chargeStateResponse : Option Json) :
    Except ApiError (Bool × TeslaConnect) := do
  let charge_state_json ← ofOption chargeStateResponse ApiError.transportError
  let resp ← ofOption (charge_state_json.get ("response")) ApiError.telemetryError
  let charging_state ← ofOption (resp.get ("charging_state")) ApiError.telemetryError
  Except.ok (charging_state.eqPyStr ("Disconnected"), tc)

/-- The per-vehicle loop of `check_plugin_status_all`: for each vehicle that
is at home and unplugged, execute `unplugged_vehicles[id] = vehicle_name` —
note the key is the Python builtin `id`, not `vehicle_id`. -/
def check_plugin_status_loop (driveState chargeState : String → Option Json) :
    TeslaConnect → List (String × Json) → List (PyKey × Json) →
      Except ApiError (List (PyKey × Json))
  | _, [], unplugged_vehicles => Except.ok unplugged_vehicles
  | tc, (vehicle_id, vehicle_name) :: rest, unplugged_vehicles => do
    let ah ← tc.is_car_at_home (driveState vehicle_id)
    if ah.1 then
      let up ← ah.2.is_car_unplugged (chargeState vehicle_id)
      if up.1 then
        check_plugin_status_loop driveState chargeState up.2 rest
          (dictInsert unplugged_vehicles PyKey.builtin_id vehicle_name)
      else
        check_plugin_status_loop driveState chargeState up.2 rest unplugged_vehicles
    else
      check_plugin_status_loop driveState chargeState ah.2 rest unplugged_vehicles

/-- `check_plugin_status_all` from `charge_status.py`: construct the client,
enumerate the vehicles, and collect those at home and unplugged. -/
def check_plugin_status_all (config : Config) (authResponse vehiclesResponse : Option Json)
    (mobileEnabled driveState chargeState : String → Option Json) :
    Except ApiError (List (PyKey × Json)) := do
  let tesla_connect ← TeslaConnect.init config authResponse
  let vg ← tesla_connect.get_vehicles vehiclesResponse mobileEnabled
  check_plugin_status_loop driveState chargeState vg.2 vg.1 []

/-- `compose_disconnect_message` from `charge_status.py`: one line per entry,
in iteration order; `none` models the `TypeError` raised by string
concatenation when a value is not a string. -/
def compose_disconnect_message {K : Type} (vehicles : List (K × Json)) : Option String :=
  vehicles.foldlM
    (fun message p =>
      p.2.asStr.map (fun n => message ++ ("Vehicle " ++ n ++ " is disconnected.\n")))
    ""

/-- Decision of a per-vehicle predicate call: did it succeed with `true`? -/
def isOkTrue : Except ApiError (Bool × TeslaConnect) → Bool
  | Except.ok (b, _) => b
  | Except.error _ => false

/-- A vehicle qualifies for the unplugged set when both predicate calls
succeed with `true` against the given telemetry oracles. -/
def qualifying (tc : TeslaConnect) (driveState chargeState : String → Option Json)
    (v : String × Json) : Bool :=
  isOkTrue (tc.is_car_at_home (driveState v.1)) &&
    isOkTrue (tc.is_car_unplugged (chargeState v.1))

/-- The possible shapes of the accumulator of `check_plugin_status_loop`:
empty, or a single entry keyed by the builtin `id`. -/
def optAcc : Option Json → List (PyKey × Json)
  | none => []
  | some n => [(PyKey.builtin_id, n)]

/-- One vehicle-level operation of the client, together with the decoded
responses its network calls will receive. -/
inductive ClientCall where
  | getVehicles (vehiclesResponse : Option Json) (mobileEnabled : String → Option Json)
  | isCarAtHome (driveStateResponse : Option Json)
  | isCarUnplugged (chargeStateResponse : Option Json)

/-- Execute one client operation and keep the resulting client state. -/
def runCall (tc : TeslaConnect) : ClientCall → Except ApiError TeslaConnect
  | ClientCall.getVehicles vr mob => (tc.get_vehicles vr mob).map Prod.snd
  | ClientCall.isCarAtHome dr => (tc.is_car_at_home dr).map Prod.snd
  | ClientCall.isCarUnplugged cr => (tc.is_car_unplugged cr).map Prod.snd

/-- Execute a sequence of client operations after construction, threading the
client state through. -/
def runCalls (tc : TeslaConnect) (calls : List ClientCall) : Except ApiError TeslaConnect :=
  calls.foldlM runCall tc

/-- Concrete home location fixture (the coordinates of the repository's own
test configuration). -/
def home0 : HomeLocation := { latitude := 57/2, longitude := -10101/100 }

/-- Concrete configuration fixture. -/
def config0 : Config :=
  { username := "me@myplace.com", password := "pAssw0rd", home_location := home0 }

/-- Concrete well-formed token-endpoint response fixture. -/
def auth0 : Json := Json.obj [(("access_token"), Json.str ("tok"))]

/-- The client state `TeslaConnect.init config0 (some auth0)` constructs. -/
def tc0 : TeslaConnect :=
  { _config := config0
    _token := "tok"
    _http_headers :=
      [(("Authorization"), ("Bearer " ++ "tok")),
       (("Content-Type"), ("application/json; charset=utf-8")),
       (("User-Agent"), TeslaConnect._user_agent)] }

/-- Concrete vehicle object fixture for the enumeration response. -/
def vehicleJson (id_s : String) (in_service : Bool) (display_name : String) : Json :=
  Json.obj [(("id_s"), Json.str id_s), (("in_service"), Json.bool in_service),
            (("display_name"), Json.str display_name)]

/-- Concrete enumeration response fixture with a correct `count`. -/
def vehiclesPayload (vs : List Json) : Json :=
  Json.obj [(("count"), Json.num vs.length), (("response"), Json.arr vs)]

/-- Enumeration response holding one vehicle that survives the in-service and
empty-identifier filters, with an arbitrary `display_name` value. -/
def singleVehiclePayload (id_s : String) (name : Json) : Json :=
  Json.obj [(("count"), Json.num 1),
            (("response"), Json.arr [Json.obj
              [(("id_s"), Json.str id_s), (("in_service"), Json.bool false),
               (("display_name"), name)]])]

/-- Concrete mobile-enabled response fixture. -/
def mobileTrue : Json := Json.obj [(("response"), Json.bool true)]

/-- Concrete drive-state response fixture at the given coordinates. -/
def driveJson (lat lon : ℚ) : Json :=
  Json.obj [(("response"),
    Json.obj [(("latitude"), Json.num lat), (("longitude"), Json.num lon)])]

/-- Concrete charge-state response fixture. -/
def chargeJson (s : String) : Json :=
  Json.obj [(("response"), Json.obj [(("charging_state"), Json.str s)])]

/-- Evaluation lemma: binding a successful `Except` step. -/
@[simp] theorem ok_bind {ε α β : Type} (a : α) (f : α → Except ε β) :
    (Except.ok a >>= f) = f a := rfl

/-- Evaluation lemma: binding a failed `Except` step propagates the error. -/
@[simp] theorem error_bind {ε α β : Type} (e : ε) (f : α → Except ε β) :
    ((Except.error e : Except ε α) >>= f) = Except.error e := rfl

/-- Evaluation lemma: `ofOption` on a present value. -/
@[simp] theorem ofOption_some {α : Type} (a : α) (e : ApiError) :
    ofOption (some a) e = Except.ok a := rfl

/-- Evaluation lemma: `ofOption` on a missing value. -/
@[simp] theorem ofOption_none {α : Type} (e : ApiError) :
    ofOption (none : Option α) e = Except.error e := rfl

/-- Inversion lemma: a successful bind comes from a successful first step. -/
theorem bind_ok_iff {ε α β : Type} (x : Except ε α) (f : α → Except ε β) (b : β) :
    (x >>= f) = Except.ok b ↔ ∃ a, x = Except.ok a ∧ f a = Except.ok b := by
  cases x <;> simp

/-- Inversion lemma: `ofOption` succeeds exactly on present values. -/
theorem ofOption_eq_ok_iff {α : Type} (o : Option α) (e : ApiError) (a : α) :
    ofOption o e = Except.ok a ↔ o = some a := by
  cases o <;> simp [ofOption]

/-- Claim C3: `is_car_at_home` returns true exactly when both the latitude and
the longitude of the reported position differ from the configured home
location by at most 0.0005 degrees; the boundary value 0.0005 itself counts as
at home. -/
theorem is_car_at_home_geofence (tc : TeslaConnect) (lat lon : ℚ) :
    tc.is_car_at_home (some (Json.obj
      [(("response"), Json.obj [(("latitude"), Json.num lat), (("longitude"), Json.num lon)])]))
      = Except.ok (true, tc)
    ↔ (|lat - tc._config.home_location.latitude| ≤ 0.0005 ∧
       |lon - tc._config.home_location.longitude| ≤ 0.0005) := by
  simp [TeslaConnect.is_car_at_home, Json.get, lookupField, Json.toPyNum]
  split
  · rename_i hc
    simp [hc]
  · rename_i hc
    simp [hc]

/-- Bridge lemma: a nonempty string has positive length. -/
theorem str_length_pos (s : String) (h : s ≠ "") : 0 < s.length := by
  cases s with
  | mk data =>
    cases data with
    | nil => exact absurd rfl h
    | cons c cs => simp [String.length]

/-- Bridge lemma: `Json.isTrue` holds exactly for the JSON boolean `true`. -/
theorem isTrue_iff (j : Json) : j.isTrue = true ↔ j = Json.bool true := by
  cases j with
  | null => simp [Json.isTrue]
  | bool b => cases b <;> simp [Json.isTrue]
  | num q => simp [Json.isTrue]
  | str s => simp [Json.isTrue]
  | arr l => simp [Json.isTrue]
  | obj l => simp [Json.isTrue]

/-- Claim C4: `is_car_unplugged` returns true exactly when the reported
`charging_state` string equals `"Disconnected"` under case-sensitive
comparison; every other string yields false. -/
theorem is_car_unplugged_disconnected (tc : TeslaConnect) (s : String) :
    tc.is_car_unplugged (some (Json.obj
      [(("response"), Json.obj [(("charging_state"), Json.str s)])]))
      = Except.ok (decide (s = "Disconnected"), tc) := by
  simp [TeslaConnect.is_car_unplugged, Json.get, lookupField, Json.eqPyStr]

/-- Claim C7 counterexample: an enumeration payload that is missing the
`response` field but carries `count = 0` makes `get_vehicles` return the empty
mapping instead of failing with a `VehicleListError`. -/
theorem get_vehicles_missing_response_returns :
    tc0.get_vehicles (some (Json.obj [(("count"), Json.num 0)])) (fun _ => none)
      = Except.ok ([], tc0) := by
  simp [TeslaConnect.get_vehicles, Json.get, lookupField, Json.toPyNum]

/-- Claim C7 (amended): a payload missing `count` always fails with
`VehicleListError`; a payload missing `response` fails with `VehicleListError`
when its `count` is positive; when `count` is zero or negative the `response`
field is never consulted and the empty mapping is returned. -/
theorem get_vehicles_malformed_payload (tc : TeslaConnect) (vj : Json)
    (mob : String → Option Json) :
    (vj.get ("count") = none →
      tc.get_vehicles (some vj) mob = Except.error ApiError.vehicleListError) ∧
    (∀ c : ℚ, vj.get ("count") = some (Json.num c) → 0 < c →
      vj.get ("response") = none →
      tc.get_vehicles (some vj) mob = Except.error ApiError.vehicleListError) ∧
    (∀ c : ℚ, vj.get ("count") = some (Json.num c) → c ≤ 0 →
      tc.get_vehicles (some vj) mob = Except.ok ([], tc)) := by
  refine ⟨?_, ?_, ?_⟩
  · intro h
    simp [TeslaConnect.get_vehicles, h]
  · intro c hc hpos hr
    simp [TeslaConnect.get_vehicles, hc, Json.toPyNum, hpos, hr]
  · intro c hc hle
    simp [TeslaConnect.get_vehicles, hc, Json.toPyNum, not_lt.mpr hle]

/-- Witness for claim C7 (amended), at three concrete payloads. -/
theorem get_vehicles_malformed_payload_witness :
    tc0.get_vehicles (some (Json.obj [(("x"), Json.null)])) (fun _ => none)
        = Except.error ApiError.vehicleListError ∧
    tc0.get_vehicles (some (Json.obj [(("count"), Json.num 2)])) (fun _ => none)
        = Except.error ApiError.vehicleListError ∧
    tc0.get_vehicles (some (Json.obj [(("count"), Json.num (-1))])) (fun _ => none)
        = Except.ok ([], tc0) := by
  refine ⟨(get_vehicles_malformed_payload tc0 _ _).1 (by simp [Json.get, lookupField]),
    (get_vehicles_malformed_payload tc0 _ _).2.1 2 (by simp [Json.get, lookupField])
      (by norm_num) (by simp [Json.get, lookupField]),
    (get_vehicles_malformed_payload tc0 _ _).2.2 (-1) (by simp [Json.get, lookupField])
      (by norm_num)⟩

/-- Claim C10: a vehicle surviving the in-service and empty-identifier filters
is included exactly when the `response` field of its mobile-enabled check is
identically the boolean `True`; any other value there — including truthy
non-booleans such as the number 1 or the string `"true"` — excludes it. -/
theorem get_vehicles_mobile_identity (tc : TeslaConnect) (id_s : String) (name : Json)
    (mresp : Json) (h : id_s ≠ "") :
    (mresp = Json.bool true →
      tc.get_vehicles (some (singleVehiclePayload id_s name))
          (fun _ => some (Json.obj [(("response"), mresp)]))
        = Except.ok ([(id_s, name)], tc)) ∧
    (mresp ≠ Json.bool true →
      tc.get_vehicles (some (singleVehiclePayload id_s name))
          (fun _ => some (Json.obj [(("response"), mresp)]))
        = Except.ok ([], tc)) := by
  constructor
  · intro he
    subst he
    simp [TeslaConnect.get_vehicles, singleVehiclePayload, Json.get, lookupField,
      Json.toPyNum, Json.asArr, get_vehicles_loop, Json.asStr, str_length_pos _ h,
      Json.truthy, Json.isTrue, dictInsert]
  · intro hne
    have hf : mresp.isTrue = false := by
      rcases Bool.eq_false_or_eq_true mresp.isTrue with hb | hb
      · exact absurd ((isTrue_iff mresp).mp hb) hne
      · exact hb
    simp [TeslaConnect.get_vehicles, singleVehiclePayload, Json.get, lookupField,
      Json.toPyNum, Json.asArr, get_vehicles_loop, Json.asStr, str_length_pos _ h,
      Json.truthy, hf]

/-- Witness for claim C10: the truthy non-boolean `1` in the mobile-enabled
response excludes the vehicle. -/
theorem get_vehicles_mobile_identity_witness :
    tc0.get_vehicles (some (singleVehiclePayload ("42") (Json.str ("Car"))))
        (fun _ => some (Json.obj [(("response"), Json.num 1)]))
      = Except.ok ([], tc0) :=
  (get_vehicles_mobile_identity tc0 ("42") (Json.str ("Car")) (Json.num 1)
    (by simp)).2 (by simp)

/-- Bridge lemma: a successful string view pins down the JSON value. -/
theorem asStr_eq_some (j : Json) (s : String) (h : j.asStr = some s) : j = Json.str s := by
  cases j with
  | str a => simp [Json.asStr] at h; rw [h]
  | null => simp [Json.asStr] at h
  | bool b => simp [Json.asStr] at h
  | num q => simp [Json.asStr] at h
  | arr l => simp [Json.asStr] at h
  | obj l => simp [Json.asStr] at h

/-- Bridge lemma: a successful list view pins down the JSON value. -/
theorem asArr_eq_some (j : Json) (l : List Json) (h : j.asArr = some l) : j = Json.arr l := by
  cases j with
  | arr a => simp [Json.asArr] at h; rw [h]
  | null => simp [Json.asArr] at h
  | bool b => simp [Json.asArr] at h
  | num q => simp [Json.asArr] at h
  | str s => simp [Json.asArr] at h
  | obj ff => simp [Json.asArr] at h

/-- Bridge lemma: a string of positive length is nonempty. -/
theorem str_ne_of_length_pos (s : String) (h : 0 < s.length) : s ≠ "" := by
  intro he
  subst he
  simp at h

/-- Inversion lemma: membership in a Python dictionary after an update comes
from the old dictionary or is the updated binding. -/
theorem mem_dictInsert {K V : Type} [DecidableEq K] (d : List (K × V)) (k : K) (v : V)
    (p : K × V) (h : p ∈ dictInsert d k v) : p ∈ d ∨ p = (k, v) := by
  unfold dictInsert at h
  split at h
  · rcases List.mem_map.mp h with ⟨q, hq, he⟩
    by_cases hk : q.1 = k
    · rw [if_pos hk] at he
      exact Or.inr he.symm
    · rw [if_neg hk] at he
      exact Or.inl (he ▸ hq)
  · rcases List.mem_append.mp h with hd | hs
    · exact Or.inl hd
    · exact Or.inr (List.mem_singleton.mp hs)

/-- Inversion lemma for the vehicle loop: every entry of the final mapping was
in the accumulator already, or comes from a listed vehicle that passed the
empty-identifier, in-service and mobile-enabled filters. -/
theorem get_vehicles_loop_mem (mob : String → Option Json) (vs : List Json) :
    ∀ (acc m : List (String × Json)), get_vehicles_loop mob vs acc = Except.ok m →
      ∀ id_s name, (id_s, name) ∈ m →
        (id_s, name) ∈ acc ∨
        (id_s ≠ "" ∧ ∃ v ∈ vs,
          v.get ("id_s") = some (Json.str id_s) ∧
          v.get ("display_name") = some name ∧
          (∃ insJ, v.get ("in_service") = some insJ ∧ insJ.truthy = false) ∧
          (∃ mej rj, mob id_s = some mej ∧ mej.get ("response") = some rj ∧
            rj.isTrue = true)) := by
  induction vs with
  | nil =>
    intro acc m h id_s name hm
    simp [get_vehicles_loop] at h
    subst h
    exact Or.inl hm
  | cons v rest ih =>
    intro acc m h id_s name hm
    simp only [get_vehicles_loop] at h
    rw [bind_ok_iff] at h
    obtain ⟨idJ, hid, h⟩ := h
    rw [ofOption_eq_ok_iff] at hid
    rw [bind_ok_iff] at h
    obtain ⟨ids, hids, h⟩ := h
    rw [ofOption_eq_ok_iff] at hids
    have hidv : v.get ("id_s") = some (Json.str ids) := by
      rw [hid, asStr_eq_some idJ ids hids]
    by_cases hlen : 0 < ids.length
    · rw [if_pos hlen] at h
      rw [bind_ok_iff] at h
      obtain ⟨insJ, hins, h⟩ := h
      rw [ofOption_eq_ok_iff] at hins
      by_cases htr : insJ.truthy = true
      · rw [if_pos htr] at h
        rcases ih acc m h id_s name hm with hl | ⟨hne, w, hw, hrest⟩
        · exact Or.inl hl
        · exact Or.inr ⟨hne, w, List.mem_cons_of_mem _ hw, hrest⟩
      · rw [if_neg htr] at h
        rw [bind_ok_iff] at h
        obtain ⟨mej, hmej, h⟩ := h
        rw [ofOption_eq_ok_iff] at hmej
        rw [bind_ok_iff] at h
        obtain ⟨rj, hrj, h⟩ := h
        rw [ofOption_eq_ok_iff] at hrj
        by_cases hit : rj.isTrue = true
        · rw [if_pos hit] at h
          rw [bind_ok_iff] at h
          obtain ⟨nameJ, hname, h⟩ := h
          rw [ofOption_eq_ok_iff] at hname
          rcases ih _ m h id_s name hm with hl | ⟨hne, w, hw, hrest⟩
          · rcases mem_dictInsert acc ids nameJ _ hl with hacc | heq
            · exact Or.inl hacc
            · rw [Prod.ext_iff] at heq
              obtain ⟨h1, h2⟩ := heq
              dsimp at h1 h2
              subst h1
              subst h2
              refine Or.inr ⟨str_ne_of_length_pos _ hlen, v, List.mem_cons_self _ _,
                hidv, hname, ⟨insJ, hins, Bool.eq_false_iff.mpr htr⟩,
                ⟨mej, rj, hmej, hrj, hit⟩⟩
          · exact Or.inr ⟨hne, w, List.mem_cons_of_mem _ hw, hrest⟩
        · rw [if_neg hit] at h
          rcases ih acc m h id_s name hm with hl | ⟨hne, w, hw, hrest⟩
          · exact Or.inl hl
          · exact Or.inr ⟨hne, w, List.mem_cons_of_mem _ hw, hrest⟩
    · rw [if_neg hlen] at h
      rcases ih acc m h id_s name hm with hl | ⟨hne, w, hw, hrest⟩
      · exact Or.inl hl
      · exact Or.inr ⟨hne, w, List.mem_cons_of_mem _ hw, hrest⟩

/-- Claim C5: a vehicle appears in the mapping returned by `get_vehicles` only
if its `in_service` flag is not truthy, its identifier is non-empty, and its
per-vehicle mobile-access check answered identically `True`; no in-service
vehicle and no mobile-access-disabled vehicle ever appears. -/
theorem get_vehicles_only_if (tc : TeslaConnect) (vr : Option Json)
    (mob : String → Option Json) (m : List (String × Json)) (tc₂ : TeslaConnect)
    (h : tc.get_vehicles vr mob = Except.ok (m, tc₂)) :
    ∀ id_s name, (id_s, name) ∈ m →
      id_s ≠ "" ∧ ∃ vj vs, vr = some vj ∧ vj.get ("response") = some (Json.arr vs) ∧
        ∃ v ∈ vs, v.get ("id_s") = some (Json.str id_s) ∧
          v.get ("display_name") = some name ∧
          (∃ insJ, v.get ("in_service") = some insJ ∧ insJ.truthy = false) ∧
          (∃ mej rj, mob id_s = some mej ∧ mej.get ("response") = some rj ∧
            rj.isTrue = true) := by
  intro id_s name hm
  unfold TeslaConnect.get_vehicles at h
  cases vr with
  | none => simp at h
  | some vj =>
    simp only [ofOption_some, ok_bind] at h
    rw [bind_ok_iff] at h
    obtain ⟨cj, hcj, h⟩ := h
    rw [ofOption_eq_ok_iff] at hcj
    rw [bind_ok_iff] at h
    obtain ⟨c, hc, h⟩ := h
    by_cases hpos : 0 < c
    · rw [if_pos hpos] at h
      rw [bind_ok_iff] at h
      obtain ⟨respJ, hresp, h⟩ := h
      rw [ofOption_eq_ok_iff] at hresp
      rw [bind_ok_iff] at h
      obtain ⟨vs, hvs, h⟩ := h
      rw [ofOption_eq_ok_iff] at hvs
      rw [bind_ok_iff] at h
      obtain ⟨vehicles, hloop, h⟩ := h
      have hmv : vehicles = m := by
        have := Except.ok.inj h
        exact congrArg Prod.fst this
      rw [← hmv] at hm
      rcases get_vehicles_loop_mem mob vs [] vehicles hloop id_s name hm with
        hl | ⟨hne, w, hw, hrest⟩
      · simp at hl
      · exact ⟨hne, vj, vs, rfl, by rw [hresp, asArr_eq_some respJ vs hvs], w, hw, hrest⟩
    · rw [if_neg hpos] at h
      have : ([] : List (String × Json)) = m := congrArg Prod.fst (Except.ok.inj h)
      rw [← this] at hm
      simp at hm

/-- Witness for claim C5, at a one-vehicle account whose vehicle passes all
filters. -/
theorem get_vehicles_only_if_witness :
    ("42" : String) ≠ "" ∧ ∃ vj vs,
      some (vehiclesPayload [vehicleJson ("42") false ("Car")]) = some vj ∧
      vj.get ("response") = some (Json.arr vs) ∧
      ∃ v ∈ vs, v.get ("id_s") = some (Json.str ("42")) ∧
        v.get ("display_name") = some (Json.str ("Car")) ∧
        (∃ insJ, v.get ("in_service") = some insJ ∧ insJ.truthy = false) ∧
        (∃ mej rj, (fun (_ : String) => some mobileTrue) ("42") = some mej ∧
          mej.get ("response") = some rj ∧ rj.isTrue = true) := by
  refine get_vehicles_only_if tc0 (some (vehiclesPayload [vehicleJson ("42") false ("Car")]))
    (fun _ => some mobileTrue) [(("42" : String), Json.str ("Car"))] tc0 ?_ ("42")
    (Json.str ("Car")) (by simp)
  simp [TeslaConnect.get_vehicles, vehiclesPayload, vehicleJson, mobileTrue, Json.get,
    lookupField, Json.toPyNum, Json.asArr, get_vehicles_loop, Json.asStr, Json.truthy,
    Json.isTrue, dictInsert, str_length_pos ("42") (by simp)]

/-- Frame lemma: `is_car_at_home` returns the client state unchanged. -/
theorem is_car_at_home_state (tc : TeslaConnect) (o : Option Json) (b : Bool)
    (tc' : TeslaConnect) (h : tc.is_car_at_home o = Except.ok (b, tc')) : tc' = tc := by
  unfold TeslaConnect.is_car_at_home at h
  cases o with
  | none => simp at h
  | some j =>
    simp only [ofOption_some, ok_bind] at h
    rw [bind_ok_iff] at h
    obtain ⟨resp, _, h⟩ := h
    rw [bind_ok_iff] at h
    obtain ⟨latJ, _, h⟩ := h
    rw [bind_ok_iff] at h
    obtain ⟨lat, _, h⟩ := h
    split at h
    · rw [bind_ok_iff] at h
      obtain ⟨lonJ, _, h⟩ := h
      rw [bind_ok_iff] at h
      obtain ⟨lon, _, h⟩ := h
      exact (congrArg Prod.snd (Except.ok.inj h)).symm
    · exact (congrArg Prod.snd (Except.ok.inj h)).symm

/-- Frame lemma: `is_car_unplugged` returns the client state unchanged. -/
theorem is_car_unplugged_state (tc : TeslaConnect) (o : Option Json) (b : Bool)
    (tc' : TeslaConnect) (h : tc.is_car_unplugged o = Except.ok (b, tc')) : tc' = tc := by
  unfold TeslaConnect.is_car_unplugged at h
  cases o with
  | none => simp at h
  | some j =>
    simp only [ofOption_some, ok_bind] at h
    rw [bind_ok_iff] at h
    obtain ⟨resp, _, h⟩ := h
    rw [bind_ok_iff] at h
    obtain ⟨cs, _, h⟩ := h
    exact (congrArg Prod.snd (Except.ok.inj h)).symm

/-- Frame lemma: `get_vehicles` returns the client state unchanged. -/
theorem get_vehicles_state (tc : TeslaConnect) (vr : Option Json)
    (mob : String → Option Json) (m : List (String × Json)) (tc₂ : TeslaConnect)
    (h : tc.get_vehicles vr mob = Except.ok (m, tc₂)) : tc₂ = tc := by
  unfold TeslaConnect.get_vehicles at h
  cases vr with
  | none => simp at h
  | some vj =>
    simp only [ofOption_some, ok_bind] at h
    rw [bind_ok_iff] at h
    obtain ⟨cj, _, h⟩ := h
    rw [bind_ok_iff] at h
    obtain ⟨c, _, h⟩ := h
    split at h
    · rw [bind_ok_iff] at h
      obtain ⟨respJ, _, h⟩ := h
      rw [bind_ok_iff] at h
      obtain ⟨vs, _, h⟩ := h
      rw [bind_ok_iff] at h
      obtain ⟨vehicles, _, h⟩ := h
      exact (congrArg Prod.snd (Except.ok.inj h)).symm
    · exact (congrArg Prod.snd (Except.ok.inj h)).symm

/-- Evaluation lemma: updating an accumulator of the collapsed shape under the
builtin `id` key yields the one-entry collapsed shape again. -/
theorem dictInsert_optAcc (o : Option Json) (v : Json) :
    dictInsert (optAcc o) PyKey.builtin_id v = optAcc (some v) := by
  cases o <;> simp [optAcc, dictInsert]

/-- Evaluation lemma: the last element of an optional singleton. -/
theorem optAcc_toList_getLast (o : Option Json) : o.toList.getLast? = o := by
  cases o <;> simp

/-- Characterization of the `check_plugin_status_all` loop: starting from an
accumulator of the collapsed shape, a successful run returns the collapsed
shape holding the display name of the last qualifying vehicle, every entry
keyed by the builtin `id`. -/
theorem check_loop_char (ds cs : String → Option Json) (vs : List (String × Json)) :
    ∀ (tc : TeslaConnect) (o : Option Json) (r : List (PyKey × Json)),
      check_plugin_status_loop ds cs tc vs (optAcc o) = Except.ok r →
      r = optAcc ((o.toList ++ (vs.filter (qualifying tc ds cs)).map Prod.snd).getLast?) := by
  induction vs with
  | nil =>
    intro tc o r h
    simp [check_plugin_status_loop] at h
    rw [← h]
    simp [optAcc_toList_getLast]
  | cons v rest ih =>
    intro tc o r h
    obtain ⟨vid, nm⟩ := v
    simp only [check_plugin_status_loop] at h
    rw [bind_ok_iff] at h
    obtain ⟨ah, hah, h⟩ := h
    obtain ⟨ahb, ahtc⟩ := ah
    have hst : ahtc = tc := is_car_at_home_state tc (ds vid) ahb ahtc hah
    rw [hst] at hah h
    dsimp only at h
    cases ahb with
    | false =>
      rw [if_neg Bool.false_ne_true] at h
      have hq : qualifying tc ds cs (vid, nm) = false := by
        simp [qualifying, hah, isOkTrue]
      rw [List.filter_cons, hq]
      simp only [Bool.false_eq_true, if_false]
      exact ih tc o r h
    | true =>
      rw [if_pos rfl] at h
      rw [bind_ok_iff] at h
      obtain ⟨up, hup, h⟩ := h
      obtain ⟨upb, uptc⟩ := up
      have hst2 : uptc = tc := is_car_unplugged_state tc (cs vid) upb uptc hup
      rw [hst2] at hup h
      dsimp only at h
      cases upb with
      | false =>
        rw [if_neg Bool.false_ne_true] at h
        have hq : qualifying tc ds cs (vid, nm) = false := by
          simp [qualifying, hah, hup, isOkTrue]
        rw [List.filter_cons, hq]
        simp only [Bool.false_eq_true, if_false]
        exact ih tc o r h
      | true =>
        rw [if_pos rfl] at h
        rw [dictInsert_optAcc] at h
        have hq : qualifying tc ds cs (vid, nm) = true := by
          simp [qualifying, hah, hup, isOkTrue]
        rw [List.filter_cons, hq]
        simp only [if_true]
        rw [ih tc (some nm) r h]
        simp only [List.map_cons, Option.toList, List.singleton_append, List.getLast?_append]
        cases hlast : (nm :: List.map Prod.snd
            (List.filter (qualifying tc ds cs) rest)).getLast? with
        | none =>
          rw [List.getLast?_eq_none_iff] at hlast
          cases hlast
        | some x => rfl

/-- Shape lemma: the collapsed accumulator has at most one entry. -/
theorem optAcc_length (o : Option Json) : (optAcc o).length ≤ 1 := by
  cases o <;> simp [optAcc]

/-- Shape lemma: every entry of the collapsed accumulator is keyed by the
builtin `id`. -/
theorem optAcc_keys (o : Option Json) (p : PyKey × Json) (hp : p ∈ optAcc o) :
    p.1 = PyKey.builtin_id := by
  cases o with
  | none => simp [optAcc] at hp
  | some n =>
    simp [optAcc] at hp
    rw [hp]

/-- Claim C2: whatever vehicles `get_vehicles` returned, a successful
`check_plugin_status_all` returns at most one entry, every entry is keyed by
the Python builtin function `id` (never by a vehicle-identifier string), and
the surviving value is the display name of the last qualifying vehicle in
iteration order. -/
theorem check_plugin_status_all_collapsed
    (config : Config) (ar vr : Option Json) (mob ds cs : String → Option Json)
    (tc : TeslaConnect) (vehicles : List (String × Json)) (tc₂ : TeslaConnect)
    (r : List (PyKey × Json))
    (hinit : TeslaConnect.init config ar = Except.ok tc)
    (hveh : tc.get_vehicles vr mob = Except.ok (vehicles, tc₂))
    (h : check_plugin_status_all config ar vr mob ds cs = Except.ok r) :
    r.length ≤ 1 ∧ (∀ p ∈ r, p.1 = PyKey.builtin_id) ∧
      r = optAcc (((vehicles.filter (qualifying tc₂ ds cs)).map Prod.snd).getLast?) := by
  unfold check_plugin_status_all at h
  rw [hinit] at h
  simp only [ok_bind] at h
  rw [hveh] at h
  simp only [ok_bind] at h
  have hchar := check_loop_char ds cs vehicles tc₂ none r h
  simp only [Option.toList, List.nil_append] at hchar
  refine ⟨?_, ?_, hchar⟩
  · rw [hchar]
    exact optAcc_length _
  · intro p hp
    rw [hchar] at hp
    exact optAcc_keys _ p hp

/-- Witness for claim C2, at an account with two vehicles that are both at
home and disconnected: only the second display name survives, under the
builtin `id` key. -/
theorem check_plugin_status_all_collapsed_witness :
    ([(PyKey.builtin_id, Json.str ("Car2"))] : List (PyKey × Json)).length ≤ 1 ∧
    (∀ p ∈ ([(PyKey.builtin_id, Json.str ("Car2"))] : List (PyKey × Json)),
      p.1 = PyKey.builtin_id) ∧
    ([(PyKey.builtin_id, Json.str ("Car2"))] : List (PyKey × Json)) =
      optAcc (((([(("1" : String), Json.str ("Car1")),
          (("2" : String), Json.str ("Car2"))]).filter
        (qualifying tc0 (fun _ => some (driveJson (57/2) (-10101/100)))
          (fun _ => some (chargeJson ("Disconnected"))))).map Prod.snd).getLast?) :=
  check_plugin_status_all_collapsed config0 (some auth0)
    (some (Json.obj [(("count"), Json.num 2),
      (("response"), Json.arr [vehicleJson ("1") false ("Car1"),
        vehicleJson ("2") false ("Car2")])]))
    (fun _ => some mobileTrue)
    (fun _ => some (driveJson (57/2) (-10101/100)))
    (fun _ => some (chargeJson ("Disconnected")))
    tc0 [(("1" : String), Json.str ("Car1")), (("2" : String), Json.str ("Car2"))] tc0
    [(PyKey.builtin_id, Json.str ("Car2"))]
    rfl
    (by simp [TeslaConnect.get_vehicles, Json.get, lookupField, Json.toPyNum, Json.asArr,
      get_vehicles_loop, vehicleJson, mobileTrue, Json.truthy, Json.isTrue, Json.asStr,
      dictInsert, show (0:ℚ) < 2 from by norm_num, str_length_pos ("1") (by simp),
      str_length_pos ("2") (by simp)])
    (by simp [check_plugin_status_all, TeslaConnect.init, auth0, config0, home0, Json.get,
      lookupField, Json.asStr, TeslaConnect.get_vehicles, Json.toPyNum, Json.asArr,
      get_vehicles_loop, vehicleJson, mobileTrue, Json.truthy, Json.isTrue, dictInsert,
      check_plugin_status_loop, TeslaConnect.is_car_at_home, TeslaConnect.is_car_unplugged,
      driveJson, chargeJson, Json.eqPyStr, optAcc, show (0:ℚ) < 2 from by norm_num,
      show (0:ℚ) ≤ 0.0005 from by norm_num, str_length_pos ("1") (by simp),
      str_length_pos ("2") (by simp)])

/-- Claim C1 (evaluation of the code at the failing input): for a single
vehicle with identifier `"42"` and name `"Car"` that is not in service,
mobile-enabled, at home and disconnected, `check_plugin_status_all` returns a
mapping keyed by the Python builtin `id` — the entry `("42", "Car")` promised
by the claim and by the function's own docstring is absent. -/
theorem check_plugin_status_all_builtin_key :
    check_plugin_status_all config0 (some auth0)
        (some (Json.obj [(("count"), Json.num 1),
          (("response"), Json.arr [vehicleJson ("42") false ("Car")])]))
        (fun _ => some mobileTrue)
        (fun _ => some (driveJson (57/2) (-10101/100)))
        (fun _ => some (chargeJson ("Disconnected")))
      = Except.ok [(PyKey.builtin_id, Json.str ("Car"))] ∧
    (PyKey.str ("42"), Json.str ("Car")) ∉ [(PyKey.builtin_id, Json.str ("Car"))] := by
  constructor
  · simp [check_plugin_status_all, TeslaConnect.init, auth0, config0, home0, Json.get,
      lookupField, Json.asStr, TeslaConnect.get_vehicles, Json.toPyNum, Json.asArr,
      get_vehicles_loop, vehicleJson, mobileTrue, Json.truthy, Json.isTrue, dictInsert,
      check_plugin_status_loop, TeslaConnect.is_car_at_home, TeslaConnect.is_car_unplugged,
      driveJson, chargeJson, Json.eqPyStr, optAcc, show (0:ℚ) < 1 from by norm_num,
      show (0:ℚ) ≤ 0.0005 from by norm_num, str_length_pos ("42") (by simp)]
  · simp

/-- Claim C6: when the authentication response lacks a usable access token —
including when the HTTP call itself failed and produced no body — the whole
`check_plugin_status_all` run fails with `AuthenticationError`, whatever every
vehicle-level oracle would have answered: no vehicle-level call can influence
the outcome and no mapping is produced. -/
theorem auth_failure_aborts (config : Config) (ar : Option Json)
    (h : (ar.bind (fun j => j.get ("access_token"))).bind Json.asStr = none) :
    ∀ (vr : Option Json) (mob ds cs : String → Option Json),
      check_plugin_status_all config ar vr mob ds cs
        = Except.error ApiError.authenticationError := by
  intro vr mob ds cs
  unfold check_plugin_status_all TeslaConnect.init
  cases ar with
  | none => rfl
  | some j =>
    simp only [Option.some_bind] at h
    cases hj : j.get ("access_token") with
    | none => simp [hj]
    | some t =>
      rw [hj] at h
      simp only [Option.some_bind] at h
      simp [hj, h]

/-- Witness for claim C6: an empty-object token response aborts a run whose
vehicle oracles are all well-formed. -/
theorem auth_failure_aborts_witness :
    check_plugin_status_all config0 (some (Json.obj []))
      (some (vehiclesPayload [vehicleJson ("1") false ("Car1")]))
      (fun _ => some mobileTrue)
      (fun _ => some (driveJson (57/2) (-10101/100)))
      (fun _ => some (chargeJson ("Disconnected")))
      = Except.error ApiError.authenticationError :=
  auth_failure_aborts config0 (some (Json.obj [])) rfl
    (some (vehiclesPayload [vehicleJson ("1") false ("Car1")]))
    (fun _ => some mobileTrue)
    (fun _ => some (driveJson (57/2) (-10101/100)))
    (fun _ => some (chargeJson ("Disconnected")))

/-- Bridge lemma: `String.join` distributes over `::`. -/
theorem str_join_cons (s : String) (l : List String) :
    String.join (s :: l) = s ++ String.join l := by
  apply String.ext
  simp [String.join_eq, String.data_append]

/-- Bridge lemma: string concatenation is associative. -/
theorem str_append_assoc (a b c : String) : (a ++ b) ++ c = a ++ (b ++ c) := by
  apply String.ext
  simp [String.data_append]

/-- Evaluation lemma: monadic bind of a present `Option` value. -/
@[simp] theorem some_bind_eq {α β : Type} (a : α) (f : α → Option β) :
    ((some a : Option α) >>= f) = f a := rfl

/-- Evaluation lemma for the fold inside `compose_disconnect_message`, over a
mapping whose values are all strings, with an arbitrary starting message. -/
theorem compose_go {K : Type} (l : List (K × String)) (acc : String) :
    List.foldlM
      (fun message p =>
        Option.map (fun n => message ++ ("Vehicle " ++ n ++ " is disconnected.\n"))
          (Json.asStr p.2))
      acc (l.map (fun p => (p.1, Json.str p.2)))
    = some (acc ++ String.join (l.map (fun p => "Vehicle " ++ p.2 ++ " is disconnected.\n"))) := by
  induction l generalizing acc with
  | nil => simp [String.join]
  | cons p rest ih =>
    have hstr : ∀ s : String, Json.asStr (Json.str s) = some s := fun _ => rfl
    rw [List.map_cons, List.foldlM_cons]
    simp only [hstr, Option.map_some', some_bind_eq]
    rw [ih]
    rw [List.map_cons, str_join_cons]
    simp [str_append_assoc]

/-- Claim C8: `compose_disconnect_message` returns, in iteration order, the
concatenation of one line `"Vehicle <name> is disconnected.\n"` per entry; the
empty mapping yields the empty string and a one-entry mapping with name
`"Car"` yields exactly one such line. -/
theorem compose_disconnect_message_spec :
    (∀ (K : Type) (l : List (K × String)),
      compose_disconnect_message (l.map (fun p => (p.1, Json.str p.2)))
        = some (String.join (l.map (fun p => "Vehicle " ++ p.2 ++ " is disconnected.\n")))) ∧
    compose_disconnect_message ([] : List (String × Json)) = some ("") ∧
    compose_disconnect_message [(("1" : String), Json.str ("Car"))]
      = some ("Vehicle Car is disconnected.\n") := by
  refine ⟨?_, rfl, rfl⟩
  intro K l
  unfold compose_disconnect_message
  rw [compose_go l ""]
  rw [String.empty_append]

/-- Frame lemma: a single successful client operation leaves the client state
unchanged. -/
theorem runCall_state (tc : TeslaConnect) (c : ClientCall) (tc₁ : TeslaConnect)
    (h : runCall tc c = Except.ok tc₁) : tc₁ = tc := by
  cases c with
  | getVehicles vr mob =>
    simp only [runCall] at h
    cases hg : tc.get_vehicles vr mob with
    | error e => rw [hg] at h; simp [Except.map] at h
    | ok p =>
      obtain ⟨m, tcx⟩ := p
      rw [hg] at h
      simp [Except.map] at h
      rw [← h]
      exact get_vehicles_state tc vr mob m tcx hg
  | isCarAtHome dr =>
    simp only [runCall] at h
    cases hg : tc.is_car_at_home dr with
    | error e => rw [hg] at h; simp [Except.map] at h
    | ok p =>
      obtain ⟨b, tcx⟩ := p
      rw [hg] at h
      simp [Except.map] at h
      rw [← h]
      exact is_car_at_home_state tc dr b tcx hg
  | isCarUnplugged cr =>
    simp only [runCall] at h
    cases hg : tc.is_car_unplugged cr with
    | error e => rw [hg] at h; simp [Except.map] at h
    | ok p =>
      obtain ⟨b, tcx⟩ := p
      rw [hg] at h
      simp [Except.map] at h
      rw [← h]
      exact is_car_unplugged_state tc cr b tcx hg

/-- Claim C9: after construction, any successful sequence of `get_vehicles`,
`is_car_at_home` and `is_car_unplugged` calls leaves the client's local state
— token, headers and stored configuration — exactly as construction built it;
the token and header assignment at construction is the only mutation. -/
theorem client_state_frozen (config : Config) (ar : Option Json) (tc : TeslaConnect)
    (calls : List ClientCall) (tc' : TeslaConnect)
    (hinit : TeslaConnect.init config ar = Except.ok tc)
    (h : runCalls tc calls = Except.ok tc') : tc' = tc := by
  induction calls with
  | nil =>
    exact (Except.ok.inj h).symm
  | cons c rest ih =>
    unfold runCalls at h
    rw [List.foldlM_cons] at h
    cases hr : runCall tc c with
    | error e => rw [hr] at h; simp at h
    | ok tc₁ =>
      rw [hr] at h
      simp only [ok_bind] at h
      rw [runCall_state tc c tc₁ hr] at h
      exact ih h

/-- Witness for claim C9: a concrete two-call sequence returns the client
state built by construction unchanged. -/
theorem client_state_frozen_witness :
    runCalls tc0
        [ClientCall.getVehicles (some (singleVehiclePayload ("42") (Json.str ("Car"))))
          (fun _ => some mobileTrue),
         ClientCall.isCarUnplugged (some (chargeJson ("Disconnected")))]
      = Except.ok tc0 ∧ tc0 = tc0 := by
  constructor
  · rfl
  · exact client_state_frozen config0 (some auth0) tc0
      [ClientCall.getVehicles (some (singleVehiclePayload ("42") (Json.str ("Car"))))
        (fun _ => some mobileTrue),
       ClientCall.isCarUnplugged (some (chargeJson ("Disconnected")))]
      tc0 rfl (by rfl)
